import Mathlib

/-!
# Verification of the Mqtt_Report aggregation and layout core

Shallow embedding of the value-to-text / value-to-color mappers, the silo
report layout planner (`gerar_relatorio_silo` in `app/pdf_utils.py`), and
the per-site aggregation state machine (`app/main.py`), together with
theorems settling the frozen claims about them.

Python integers are modelled as `ℤ` (`ℕ` for counts and list indices),
colors as integer RGB triples on the 0–255 scale (the source constructs
`reportlab` colors from `r/255, g/255, b/255` or hex literals), and the
shared mutable dictionaries as association lists over `String` keys.
-/

/-- An RGB color with integer channels on the 0–255 scale. -/
structure RGB where
  r : ℤ
  g : ℤ
  b : ℤ
deriving DecidableEq, Repr

/-- `texto_por_valor` from `app/pdf_utils.py` (lines 25–50): value 0 shows
as `"."`, 85–89 show as the signed value minus 90, 92–99 show as fixed
status codes, everything else shows as the number itself. -/
def texto_por_valor_pdf (v : ℤ) : String :=
  if v = 0 then "."
  else if 85 ≤ v ∧ v ≤ 89 then toString (v - 90)
  else if v = 92 then "SR"
  else if v = 93 then "NE"
  else if v = 94 then "TN"
  else if v = 95 then "SE"
  else if v = 96 then "SI"
  else if v = 97 then "TA"
  else if v = 98 then "SC"
  else if v = 99 then "."
  else toString v

/-- `texto_por_valor` from `app/main.py` (lines 90–110): same as the
`pdf_utils` variant except that it has no special case for 0. -/
def texto_por_valor_main (v : ℤ) : String :=
  if 85 ≤ v ∧ v ≤ 89 then toString (v - 90)
  else if v = 92 then "SR"
  else if v = 93 then "NE"
  else if v = 94 then "TN"
  else if v = 95 then "SE"
  else if v = 96 then "SI"
  else if v = 97 then "TA"
  else if v = 98 then "SC"
  else if v = 99 then "."
  else toString v

/-- `cor_por_valor` from `app/pdf_utils.py` (lines 53–88): a fixed band
table; 0 and everything outside 1–60 give gray `(192,192,192)`. The
source scales each channel by `/255` when building the reportlab color;
the triple keeps the 0–255 integer scale. -/
def cor_por_valor_pdf (v : ℤ) : RGB :=
  if v = 0 then ⟨192, 192, 192⟩
  else if 1 ≤ v ∧ v ≤ 7 then ⟨128, 255, 255⟩
  else if 8 ≤ v ∧ v ≤ 14 then ⟨0, 128, 255⟩
  else if 15 ≤ v ∧ v ≤ 25 then ⟨0, 255, 128⟩
  else if 26 ≤ v ∧ v ≤ 30 then ⟨255, 255, 128⟩
  else if 31 ≤ v ∧ v ≤ 32 then ⟨255, 255, 0⟩
  else if 33 ≤ v ∧ v ≤ 35 then ⟨255, 128, 128⟩
  else if 36 ≤ v ∧ v ≤ 39 then ⟨255, 0, 0⟩
  else if 40 ≤ v ∧ v ≤ 50 then ⟨128, 64, 64⟩
  else if 51 ≤ v ∧ v ≤ 60 then ⟨128, 0, 0⟩
  else ⟨192, 192, 192⟩

/-- `cor_por_valor` from `app/main.py` (lines 113–135): band table with
hex colors; 0–9 and 85–89 give `#00BFFF`, 92–99 give `#A9A9A9`, out of
range gives `#C0C0C0`. -/
def cor_por_valor_main (v : ℤ) : RGB :=
  if (0 ≤ v ∧ v ≤ 9) ∨ (85 ≤ v ∧ v ≤ 89) then ⟨0, 191, 255⟩
  else if 10 ≤ v ∧ v ≤ 19 then ⟨50, 205, 50⟩
  else if 20 ≤ v ∧ v ≤ 29 then ⟨255, 215, 0⟩
  else if 30 ≤ v ∧ v ≤ 60 then ⟨255, 69, 0⟩
  else if 92 ≤ v ∧ v ≤ 99 then ⟨169, 169, 169⟩
  else ⟨192, 192, 192⟩

/-- The fixed sentinel-code table of the status band, as listed in the
claim (92→"SR", 93→"NE", 94→"TN", 95→"SE", 96→"SI", 97→"TA", 98→"SC",
99→"."). -/
def specSentinelText (v : ℤ) : String :=
  if v = 92 then "SR"
  else if v = 93 then "NE"
  else if v = 94 then "TN"
  else if v = 95 then "SE"
  else if v = 96 then "SI"
  else if v = 97 then "TA"
  else if v = 98 then "SC"
  else "."

/-- Modelled from the spec: interpolation between bracketing control
points (t1,c1), (t2,c2); fraction f = (t−t1)/(t2−t1), each channel
c1 + f·(c2−c1), rounded to the nearest integer channel value. -/
def lerpRGB (p q : ℚ × RGB) (t : ℚ) : RGB :=
  let f : ℚ := (t - p.1) / (q.1 - p.1)
  ⟨round ((p.2.r : ℚ) + f * ((q.2.r : ℚ) - (p.2.r : ℚ))),
   round ((p.2.g : ℚ) + f * ((q.2.g : ℚ) - (p.2.g : ℚ))),
   round ((p.2.b : ℚ) + f * ((q.2.b : ℚ) - (p.2.b : ℚ)))⟩

def interpControlPoints : List (ℚ × RGB) → ℚ → RGB
  | [], _ => ⟨0, 0, 0⟩
  | [p], _ => p.2
  | p :: q :: rest, t =>
      if t ≤ p.1 then p.2
      else if t ≤ q.1 then lerpRGB p q t
      else interpControlPoints (q :: rest) t

/-- Ordering of a list of color bands (lo, hi, color): each band has
lo ≤ hi, and each band ends strictly before the next one starts. -/
def bandsOrdered (bs : List (ℚ × ℚ × RGB)) : Prop :=
  (∀ x ∈ bs, x.1 ≤ x.2.1) ∧ List.Chain' (fun x y => x.2.1 < y.1) bs

/-- The control points of a band list: one pair per band edge. -/
def toCtrl : List (ℚ × ℚ × RGB) → List (ℚ × RGB)
  | [] => []
  | (l, h, c) :: rest => (l, c) :: (h, c) :: toCtrl rest

/-- The band decomposition of the `pdf_utils.py` color table, read off
from its source: band edges become interpolation control points. -/
def bandsPdf : List (ℚ × ℚ × RGB) :=
  [(-1, 0, ⟨192, 192, 192⟩), (1, 7, ⟨128, 255, 255⟩), (8, 14, ⟨0, 128, 255⟩),
   (15, 25, ⟨0, 255, 128⟩), (26, 30, ⟨255, 255, 128⟩), (31, 32, ⟨255, 255, 0⟩),
   (33, 35, ⟨255, 128, 128⟩), (36, 39, ⟨255, 0, 0⟩), (40, 50, ⟨128, 64, 64⟩),
   (51, 60, ⟨128, 0, 0⟩), (61, 91, ⟨192, 192, 192⟩)]

/-- The band decomposition of the `main.py` color table. -/
def bandsMain : List (ℚ × ℚ × RGB) :=
  [(-1, 0, ⟨192, 192, 192⟩), (1, 9, ⟨0, 191, 255⟩), (10, 19, ⟨50, 205, 50⟩),
   (20, 29, ⟨255, 215, 0⟩), (30, 60, ⟨255, 69, 0⟩), (61, 91, ⟨192, 192, 192⟩)]

/-- Control points witnessing that the `pdf_utils.py` band table is a
piecewise-linear interpolation: one control point per band edge,
spanning the coldest to hottest defined temperature. -/
def specControlPointsPdf : List (ℚ × RGB) := toCtrl bandsPdf

/-- Control points witnessing that the `main.py` band table is a
piecewise-linear interpolation. -/
def specControlPointsMain : List (ℚ × RGB) := toCtrl bandsMain

def pySliceTo (l : List ℕ) (k : ℤ) : List ℕ :=
  if k < 0 then l.take ((l.length : ℤ) + k).toNat else l.take k.toNat

def pySliceFrom (l : List ℕ) (k : ℤ) : List ℕ :=
  if k < 0 then l.drop ((l.length : ℤ) + k).toNat else l.drop k.toNat

/-- Column construction of `gerar_relatorio_silo` (app/pdf_utils.py lines
101–111): each cable takes its next `nsens` values from the flat vector,
truncating when the vector runs short. -/
def buildColunas : List ℕ → List ℤ → List (List ℤ)
  | [], _ => []
  | n :: ns, ts => ts.take n :: buildColunas ns (ts.drop n)

/-- max(len(cabo) for cabo in colunas, default=0) (pdf_utils.py line 116). -/
def maxSensores (cols : List (List ℤ)) : ℕ :=
  (cols.map List.length).foldr Nat.max 0

/-- The arc loop of pdf_utils.py lines 136–143: consumes declared arc
sizes, stopping at the first empty slice (the `break`), and returns the
groups together with the index where the loop stopped. -/
def cabosPorArcoGo (total : ℕ) (inicio : ℕ) : List ℕ → List (List ℕ) × ℕ
  | [] => ([], inicio)
  | q :: qs =>
    let fim := min (inicio + q) total
    if fim ≤ inicio then ([], inicio)
    else
      let r := cabosPorArcoGo total fim qs
      (List.range' inicio (fim - inicio) :: r.1, r.2)

/-- pdf_utils.py lines 135–149: cable-index groups per arc. Without
declared arcs — `None` or the empty list, both falsy in Python — every
cable is its own group; cables beyond the declared arcs form one
trailing group. -/
def cabosPorArco (arcos : Option (List ℕ)) (total : ℕ) : List (List ℕ) :=
  match arcos with
  | none => (List.range total).map (fun i => [i])
  | some l =>
    if l.isEmpty then (List.range total).map (fun i => [i])
    else
      let r := cabosPorArcoGo total 0 l
      if r.2 < total then r.1 ++ [List.range' r.2 (total - r.2)] else r.1

/-- Page-sized chunks of an oversized arc: the `range(0, qtd, 72)` slice
loop of pdf_utils.py lines 176–179. -/
def chunks72 : List ℕ → List (List ℕ)
  | [] => []
  | x :: xs => (x :: xs).take 72 :: chunks72 ((x :: xs).drop 72)
termination_by l => l.length
decreasing_by
  simp only [List.length_drop, List.length_cons]
  omega

/-- The pagination loop of pdf_utils.py lines 155–197: accumulates arcs
into the current page while they fit (72 cables per page), closing the
page otherwise; an arc larger than a whole page is split into page-sized
chunks, each becoming its own page. -/
def paginateGo (cur : List (List ℕ)) (rest : ℤ) : List (List ℕ) → List (List (List ℕ))
  | [] => if cur = [] then [] else [cur]
  | a :: arcs =>
    if (a.length : ℤ) > 72 then
      (if cur = [] then [] else [cur]) ++ (chunks72 a).map (fun ch => [ch]) ++
        paginateGo [] 72 arcs
    else if (a.length : ℤ) > rest ∧ cur ≠ [] then
      cur :: paginateGo [a] (72 - (a.length : ℤ)) arcs
    else
      paginateGo (cur ++ [a]) (rest - (a.length : ℤ)) arcs

/-- The row-split loop of pdf_utils.py lines 244–271: intersects each arc
with the page, fills row 1 while a whole group fits its remaining
capacity (36), sends a non-fitting group whole to row 2, and splits a
group that alone exceeds a row (row 1 topped up, remainder to row 2). -/
def rowPackGo (ip : List ℕ) (l1 l2 : List ℕ) (rest1 : ℤ) : List (List ℕ) → List ℕ × List ℕ
  | [] => (l1, l2)
  | a :: arcs =>
    let grupo := a.filter (fun i => ip.contains i)
    if grupo = [] then rowPackGo ip l1 l2 rest1 arcs
    else if (grupo.length : ℤ) > 36 then
      rowPackGo ip (l1 ++ pySliceTo grupo (36 - (l1.length : ℤ)))
        (l2 ++ pySliceFrom grupo (36 - (l1.length : ℤ))) 0 arcs
    else if (grupo.length : ℤ) ≤ rest1 then
      rowPackGo ip (l1 ++ grupo) l2 (rest1 - (grupo.length : ℤ)) arcs
    else
      rowPackGo ip l1 (l2 ++ grupo) rest1 arcs

/-- One page of the layout: its arc groups and the two cable rows. -/
structure PageLayout where
  groups : List (List ℕ)
  row1 : List ℕ
  row2 : List ℕ
deriving DecidableEq, Repr

/-- Rows of one page (pdf_utils.py lines 244–275), including the final
reordering of each row by page order (lines 274–275). -/
def mkPage (gs : List (List ℕ)) : PageLayout :=
  { groups := gs
    row1 := gs.flatten.filter (fun i => (rowPackGo gs.flatten [] [] 36 gs).1.contains i)
    row2 := gs.flatten.filter (fun i => (rowPackGo gs.flatten [] [] 36 gs).2.contains i) }

/-- The layout part of `gerar_relatorio_silo` (app/pdf_utils.py lines
94–281): column building, the silent early-return guards on empty input
(lines 113–118), arc grouping, pagination, and per-page row assignment.
Cell drawing and sizing are I/O on the reportlab canvas and are not part
of the placement logic modelled here. -/
def planSilo (config : List ℕ) (temps : List ℤ) (arcos : Option (List ℕ)) : List PageLayout :=
  let colunas := buildColunas config temps
  if colunas.length = 0 then []
  else if maxSensores colunas = 0 then []
  else (paginateGo [] 72 (cabosPorArco arcos colunas.length)).map mkPage

/-- The error the spec says the planner raises on empty input. -/
inductive GeometryError
  | geometryError
deriving DecidableEq, Repr

/-- `gerar_relatorio_silo` raises nothing on the empty-input paths: it
returns silently (pdf_utils.py lines 113–118). This wrapper exposes the
error channel the spec claims; the translation is total, so the result
is always `ok`. -/
def planSiloE (config : List ℕ) (temps : List ℤ) (arcos : Option (List ℕ)) :
    Except GeometryError (List PageLayout) :=
  Except.ok (planSilo config temps arcos)

/-- A group touches a row when one of its cables is assigned there. -/
def touchesRow (g row : List ℕ) : Bool := g.any (fun i => row.contains i)

/-- The claimed row discipline: once some group of the page has gone to
row 2, no later group of the page appears in row 1. -/
def noRow1AfterRow2 (p : PageLayout) : Bool :=
  (p.groups.foldl
    (fun st g =>
      (st.1 || touchesRow g p.row2, st.2 && !(st.1 && touchesRow g p.row1)))
    (false, true)).2

/-- Some arc group of some page has cables in both rows of that page. -/
def someArcSplitAcrossRows (pages : List PageLayout) : Bool :=
  pages.any (fun p => p.groups.any (fun g => touchesRow g p.row1 && touchesRow g p.row2))

/-- Row-1 quota per arc group, the corrected description of the row
split: a group goes wholly to row 1 exactly when it fits the capacity
row 1 still has at the group's turn (later groups may still enter row 1
after an earlier one overflowed to row 2); a group larger than a row
contributes exactly the remaining capacity to row 1. -/
def rowQuota (cap : ℤ) : List (List ℕ) → List ℕ
  | [] => []
  | g :: gs =>
    if (g.length : ℤ) > 36 then cap.toNat :: rowQuota 0 gs
    else if (g.length : ℤ) ≤ cap then g.length :: rowQuota (cap - (g.length : ℤ)) gs
    else 0 :: rowQuota cap gs

/-- One stored reading of main.py's `leituras_obra` entries: the
temperature vector and the message timestamp. -/
structure Reading where
  temperaturas : List ℤ
  ts : String
deriving DecidableEq, Repr

/-- The shared aggregation state of app/main.py (lines 65–67): the
per-site, per-unit latest readings and each site's last-update clock,
as association lists over the dictionary keys. -/
structure AppState where
  leiturasObra : List (String × List (String × Reading))
  ultimaLeitura : List (String × ℤ)
deriving DecidableEq, Repr

/-- Dictionary lookup (`d.get(k)`). -/
def getKey {α : Type} (k : String) : List (String × α) → Option α
  | [] => none
  | (k2, v) :: rest => if k2 = k then some v else getKey k rest

/-- Dictionary update (`d[k] = v`). -/
def upsert {α : Type} (k : String) (v : α) : List (String × α) → List (String × α)
  | [] => [(k, v)]
  | (k2, v2) :: rest => if k2 = k then (k, v) :: rest else (k2, v2) :: upsert k v rest

/-- Dictionary removal (`d.pop(k, None)`). -/
def delKey {α : Type} (k : String) (l : List (String × α)) : List (String × α) :=
  l.filter (fun p => p.1 != k)

/-- The ingestion path's record operation (`on_message`, app/main.py
lines 520–527): stores the reading under its site and unit and stamps
the site's last-update time with the processing clock. -/
def record (st : AppState) (obra silo : String) (temps : List ℤ) (ts : String)
    (now : ℤ) : AppState :=
  { leiturasObra :=
      upsert obra (upsert silo ⟨temps, ts⟩ ((getKey obra st.leiturasObra).getD []))
        st.leiturasObra
    ultimaLeitura := upsert obra now st.ultimaLeitura }

/-- The timeout scan of `monitorar_agrupamento` (app/main.py lines
459–462): the sites whose silence has reached the timeout. -/
def obrasParaFechar (st : AppState) (agora timeout : ℤ) : List String :=
  (st.ultimaLeitura.filter (fun p => decide (timeout ≤ agora - p.2))).map Prod.fst

/-- The flush, `gerar_e_enviar_relatorio_obra` (app/main.py lines
349–388): bail out when the site is unconfigured or has no data; read
the site's accumulated readings and assemble the report from them in
configured unit order (PDF drawing and the WhatsApp upload are I/O, so
the model returns the per-unit readings the report is built from); then
pop the site's entire state from both dictionaries. -/
def flushObra (cfg : List (String × List String)) (st : AppState) (obra : String) :
    AppState × Option (List (String × Reading)) :=
  match getKey obra cfg with
  | none => (st, none)
  | some unidades =>
    if ((getKey obra st.leiturasObra).getD []).isEmpty then (st, none)
    else
      (⟨delKey obra st.leiturasObra, delKey obra st.ultimaLeitura⟩,
       some (unidades.filterMap
         (fun nome =>
           (getKey nome ((getKey obra st.leiturasObra).getD [])).map (fun r => (nome, r)))))

/-- A one-site configuration for the concrete flush scenario. -/
def c1Cfg : List (String × List String) := [("obra1", ["silo1", "silo2"])]

/-- State with one reading for unit silo1 recorded at time 0. -/
def c1State : AppState := record ⟨[], []⟩ "obra1" "silo1" [20, 21] "t1" 0

/-- C7: for every code 92 ≤ v ≤ 99, both value-to-text variants return
the fixed sentinel text of the status table, and each color variant
returns its fixed gray — `(192,192,192)` in `pdf_utils.py` (the 61–99
gray band) and `(169,169,169)` in `main.py` — independent of any other
input. -/
theorem sentinel_band_fixed (v : ℤ) (h1 : 92 ≤ v) (h2 : v ≤ 99) :
    texto_por_valor_pdf v = specSentinelText v ∧
    texto_por_valor_main v = specSentinelText v ∧
    cor_por_valor_pdf v = ⟨192, 192, 192⟩ ∧
    cor_por_valor_main v = ⟨169, 169, 169⟩ := by
  have hv : v = 92 ∨ v = 93 ∨ v = 94 ∨ v = 95 ∨ v = 96 ∨ v = 97 ∨
      v = 98 ∨ v = 99 := by omega
  rcases hv with h | h | h | h | h | h | h | h <;> subst h <;>
    exact ⟨by decide, by decide, by decide, by decide⟩

/-- Witness for C7 at the concrete code 95: text "SE" and the fixed grays. -/
theorem sentinel_band_fixed_witness :
    texto_por_valor_pdf 95 = specSentinelText 95 ∧
    texto_por_valor_main 95 = specSentinelText 95 ∧
    cor_por_valor_pdf 95 = ⟨192, 192, 192⟩ ∧
    cor_por_valor_main 95 = ⟨169, 169, 169⟩ :=
  sentinel_band_fixed 95 (by decide) (by decide)

/-- C8: for the input code 0, the resolve pair of `app/pdf_utils.py`
returns the text "." and the neutral gray `(192,192,192)`. (The older
near-duplicate in `app/main.py` differs at 0; that divergence is the
subject of the refinement claim about the two text variants.) -/
theorem zero_code_resolution :
    texto_por_valor_pdf 0 = "." ∧ cor_por_valor_pdf 0 = ⟨192, 192, 192⟩ :=
  ⟨by decide, by decide⟩

/-- C10: the two near-duplicate value-to-text functions agree on every
integer input except 0, where the `main.py` variant returns "0" and the
`pdf_utils.py` variant returns ".". -/
theorem texto_variants_agree_except_zero :
    (∀ v : ℤ, v ≠ 0 → texto_por_valor_main v = texto_por_valor_pdf v) ∧
    texto_por_valor_main 0 = "0" ∧ texto_por_valor_pdf 0 = "." := by
  refine ⟨fun v hv => ?_, by decide, by decide⟩
  unfold texto_por_valor_main texto_por_valor_pdf
  rw [if_neg hv]

/-- Witness for C10 at the concrete code 37: the two text variants agree. -/
theorem texto_variants_agree_witness :
    texto_por_valor_main 37 = texto_por_valor_pdf 37 :=
  texto_variants_agree_except_zero.1 37 (by decide)

/-- Counterexample to C6 as stated: for code 87 the `pdf_utils.py` color
function returns the same gray it uses for out-of-range codes (such as
200), not a color from the cold end of the gradient (the coldest
physical band, that of code 1). -/
theorem negative_band_cold_color_fails :
    cor_por_valor_pdf 87 = cor_por_valor_pdf 200 ∧
    cor_por_valor_pdf 87 ≠ cor_por_valor_pdf 1 := by
  exact ⟨by decide, by decide⟩

/-- C6 (amended): for every code 85 ≤ v ≤ 89 both text variants return
the signed integer v − 90; the `main.py` color function returns the
cold-end blue `(0,191,255)` (its color for the coldest physical band,
code 1), while the `pdf_utils.py` color function returns the fixed gray
`(192,192,192)` it also uses for out-of-range codes. -/
theorem negative_band_resolution (v : ℤ) (h1 : 85 ≤ v) (h2 : v ≤ 89) :
    texto_por_valor_pdf v = toString (v - 90) ∧
    texto_por_valor_main v = toString (v - 90) ∧
    cor_por_valor_main v = ⟨0, 191, 255⟩ ∧
    cor_por_valor_main v = cor_por_valor_main 1 ∧
    cor_por_valor_pdf v = ⟨192, 192, 192⟩ := by
  have hv : v = 85 ∨ v = 86 ∨ v = 87 ∨ v = 88 ∨ v = 89 := by omega
  rcases hv with h | h | h | h | h <;> subst h <;>
    exact ⟨by decide, by decide, by decide, by decide, by decide⟩

/-- Witness for amended C6 at the concrete code 87: text "-3". -/
theorem negative_band_resolution_witness :
    texto_por_valor_pdf 87 = toString (87 - 90 : ℤ) ∧
    texto_por_valor_main 87 = toString (87 - 90 : ℤ) ∧
    cor_por_valor_main 87 = ⟨0, 191, 255⟩ ∧
    cor_por_valor_main 87 = cor_por_valor_main 1 ∧
    cor_por_valor_pdf 87 = ⟨192, 192, 192⟩ :=
  negative_band_resolution 87 (by decide) (by decide)

theorem interpControlPoints_cons_cons (p q : ℚ × RGB) (rest : List (ℚ × RGB)) (t : ℚ) :
    interpControlPoints (p :: q :: rest) t =
      if t ≤ p.1 then p.2
      else if t ≤ q.1 then lerpRGB p q t
      else interpControlPoints (q :: rest) t := rfl

theorem lerpRGB_same (t1 t2 t : ℚ) (c : RGB) : lerpRGB (t1, c) (t2, c) t = c := by
  obtain ⟨r, g, b⟩ := c
  simp [lerpRGB]

theorem lerpRGB_right (t1 t2 : ℚ) (c1 c2 : RGB) (h : t1 < t2) :
    lerpRGB (t1, c1) (t2, c2) t2 = c2 := by
  obtain ⟨r1, g1, b1⟩ := c1
  obtain ⟨r2, g2, b2⟩ := c2
  have hd : (t2 - t1) / (t2 - t1) = 1 := div_self (sub_ne_zero.mpr (ne_of_gt h))
  simp only [lerpRGB, hd, one_mul]
  norm_num

theorem bandsOrdered_head_le (x : ℚ × ℚ × RGB) (rest : List (ℚ × ℚ × RGB))
    (hord : bandsOrdered (x :: rest)) :
    ∀ b ∈ x :: rest, x.1 ≤ b.1 := by
  induction rest generalizing x with
  | nil =>
    intro b hb
    have hb1 : b = x := List.mem_singleton.mp hb
    rw [hb1]
  | cons y rest2 ih =>
    intro b hb
    have hxh : x.1 ≤ x.2.1 := hord.1 x (by simp)
    have hxy : x.2.1 < y.1 := (List.chain'_cons.mp hord.2).1
    have hord2 : bandsOrdered (y :: rest2) :=
      ⟨fun z hz => hord.1 z (List.mem_cons_of_mem _ hz), (List.chain'_cons.mp hord.2).2⟩
    rcases List.mem_cons.mp hb with rfl | hb2
    · exact le_refl _
    · have := ih y hord2 b hb2
      linarith

theorem interp_toCtrl_mem (bs : List (ℚ × ℚ × RGB)) (t l h : ℚ) (c : RGB)
    (hord : bandsOrdered bs) (hmem : (l, h, c) ∈ bs)
    (h1 : l ≤ t) (h2 : t ≤ h) :
    interpControlPoints (toCtrl bs) t = c := by
  induction bs with
  | nil => simp at hmem
  | cons x rest ih =>
    obtain ⟨a, b, d⟩ := x
    have hab : a ≤ b := hord.1 (a, b, d) (by simp)
    have hordr : bandsOrdered rest :=
      ⟨fun z hz => hord.1 z (List.mem_cons_of_mem _ hz), hord.2.tail⟩
    rcases List.mem_cons.mp hmem with heq | hmemr
    · -- the band is the head
      have hla : l = a := congrArg Prod.fst heq
      have hhb : h = b := congrArg (fun z => z.2.1) heq
      have hcd : c = d := congrArg (fun z => z.2.2) heq
      subst hla hhb hcd
      show interpControlPoints ((l, c) :: (h, c) :: toCtrl rest) t = c
      rw [interpControlPoints_cons_cons]
      by_cases hta : t ≤ l
      · rw [if_pos hta]
      · rw [if_neg hta, if_pos h2, lerpRGB_same]
    · -- the band is further down; rest is nonempty
      cases rest with
      | nil => simp at hmemr
      | cons y rest2 =>
        obtain ⟨a2, b2, d2⟩ := y
        have hba2 : b < a2 := (List.chain'_cons.mp hord.2).1
        have ha2l : a2 ≤ l :=
          bandsOrdered_head_le (a2, b2, d2) rest2 hordr (l, h, c) hmemr
        have ha2b2 : a2 ≤ b2 := hordr.1 (a2, b2, d2) (by simp)
        have hta : ¬ t ≤ a := by push_neg; linarith
        have htb : ¬ t ≤ b := by push_neg; linarith
        show interpControlPoints ((a, d) :: (b, d) :: toCtrl ((a2, b2, d2) :: rest2)) t = c
        rw [interpControlPoints_cons_cons, if_neg hta, if_neg htb]
        show interpControlPoints ((b, d) :: (a2, d2) :: (b2, d2) :: toCtrl rest2) t = c
        rw [interpControlPoints_cons_cons, if_neg htb]
        by_cases hthit : t ≤ a2
        · -- t = a2 = l, and the band must be (a2, b2, d2) itself
          have htea : t = a2 := le_antisymm hthit (le_trans ha2l h1)
          rw [if_pos hthit, htea, lerpRGB_right _ _ _ _ hba2]
          rcases List.mem_cons.mp hmemr with heq2 | hmem2
          · exact (congrArg (fun z => z.2.2) heq2).symm
          · -- impossible: a later band would start strictly after b2 ≥ a2 = l
            exfalso
            cases rest2 with
            | nil => simp at hmem2
            | cons z rest3 =>
              have hb2z : b2 < z.1 := (List.chain'_cons.mp hordr.2).1
              have hordr2 : bandsOrdered (z :: rest3) :=
                ⟨fun w hw => hordr.1 w (List.mem_cons_of_mem _ hw),
                 (List.chain'_cons.mp hordr.2).2⟩
              have hzl : z.1 ≤ l := bandsOrdered_head_le z rest3 hordr2 (l, h, c) hmem2
              linarith
        · rw [if_neg hthit]
          exact ih hordr hmemr

theorem bandsPdf_ordered : bandsOrdered bandsPdf := by
  constructor
  · decide
  · norm_num [bandsPdf, List.chain'_cons]

theorem bandsMain_ordered : bandsOrdered bandsMain := by
  constructor
  · decide
  · norm_num [bandsMain, List.chain'_cons]

theorem interp_pdf_band (t l h : ℚ) (c : RGB) (hmem : (l, h, c) ∈ bandsPdf)
    (h1 : l ≤ t) (h2 : t ≤ h) :
    interpControlPoints specControlPointsPdf t = c :=
  interp_toCtrl_mem bandsPdf t l h c bandsPdf_ordered hmem h1 h2

theorem interp_main_band (t l h : ℚ) (c : RGB) (hmem : (l, h, c) ∈ bandsMain)
    (h1 : l ≤ t) (h2 : t ≤ h) :
    interpControlPoints specControlPointsMain t = c :=
  interp_toCtrl_mem bandsMain t l h c bandsMain_ordered hmem h1 h2

theorem interp_clamp_first (p q : ℚ × RGB) (rest : List (ℚ × RGB)) (t : ℚ) (ht : t ≤ p.1) :
    interpControlPoints (p :: q :: rest) t = p.2 := by
  rw [interpControlPoints_cons_cons, if_pos ht]

theorem interp_pdf_low (t : ℚ) (ht : t ≤ -1) :
    interpControlPoints specControlPointsPdf t = ⟨192, 192, 192⟩ :=
  interp_clamp_first ((-1 : ℚ), (⟨192, 192, 192⟩ : RGB)) _ _ t ht

theorem interp_main_low (t : ℚ) (ht : t ≤ -1) :
    interpControlPoints specControlPointsMain t = ⟨192, 192, 192⟩ :=
  interp_clamp_first ((-1 : ℚ), (⟨192, 192, 192⟩ : RGB)) _ _ t ht

theorem interp_append_last (ps : List (ℚ × RGB)) (q : ℚ × RGB) (t : ℚ)
    (h : ∀ p ∈ ps, p.1 < t) (hq : q.1 < t) :
    interpControlPoints (ps ++ [q]) t = q.2 := by
  induction ps with
  | nil => rfl
  | cons p rest ih =>
    have hp : p.1 < t := h p (List.mem_cons_self p rest)
    have hrest : ∀ x ∈ rest, x.1 < t := fun x hx => h x (List.mem_cons_of_mem p hx)
    cases rest with
    | nil =>
      show interpControlPoints (p :: q :: []) t = q.2
      rw [interpControlPoints_cons_cons, if_neg (not_le.mpr hp), if_neg (not_le.mpr hq)]
      rfl
    | cons r rest2 =>
      have hr : r.1 < t := hrest r (List.mem_cons_self r rest2)
      show interpControlPoints (p :: r :: (rest2 ++ [q])) t = q.2
      rw [interpControlPoints_cons_cons, if_neg (not_le.mpr hp), if_neg (not_le.mpr hr)]
      exact ih hrest

theorem interp_pdf_high (t : ℚ) (ht : 91 < t) :
    interpControlPoints specControlPointsPdf t = ⟨192, 192, 192⟩ := by
  have e : specControlPointsPdf =
      [((-1 : ℚ), (⟨192, 192, 192⟩ : RGB)), (0, ⟨192, 192, 192⟩),
       (1, ⟨128, 255, 255⟩), (7, ⟨128, 255, 255⟩), (8, ⟨0, 128, 255⟩), (14, ⟨0, 128, 255⟩),
       (15, ⟨0, 255, 128⟩), (25, ⟨0, 255, 128⟩), (26, ⟨255, 255, 128⟩), (30, ⟨255, 255, 128⟩),
       (31, ⟨255, 255, 0⟩), (32, ⟨255, 255, 0⟩), (33, ⟨255, 128, 128⟩), (35, ⟨255, 128, 128⟩),
       (36, ⟨255, 0, 0⟩), (39, ⟨255, 0, 0⟩), (40, ⟨128, 64, 64⟩), (50, ⟨128, 64, 64⟩),
       (51, ⟨128, 0, 0⟩), (60, ⟨128, 0, 0⟩), (61, ⟨192, 192, 192⟩)] ++
      [((91 : ℚ), (⟨192, 192, 192⟩ : RGB))] := rfl
  rw [e]
  refine interp_append_last _ _ _ ?_ ht
  intro p hp
  have hb : p.1 ≤ 61 := by
    have hall : ∀ x ∈ ([((-1 : ℚ), (⟨192, 192, 192⟩ : RGB)), (0, ⟨192, 192, 192⟩),
       (1, ⟨128, 255, 255⟩), (7, ⟨128, 255, 255⟩), (8, ⟨0, 128, 255⟩), (14, ⟨0, 128, 255⟩),
       (15, ⟨0, 255, 128⟩), (25, ⟨0, 255, 128⟩), (26, ⟨255, 255, 128⟩), (30, ⟨255, 255, 128⟩),
       (31, ⟨255, 255, 0⟩), (32, ⟨255, 255, 0⟩), (33, ⟨255, 128, 128⟩), (35, ⟨255, 128, 128⟩),
       (36, ⟨255, 0, 0⟩), (39, ⟨255, 0, 0⟩), (40, ⟨128, 64, 64⟩), (50, ⟨128, 64, 64⟩),
       (51, ⟨128, 0, 0⟩), (60, ⟨128, 0, 0⟩), (61, ⟨192, 192, 192⟩)] : List (ℚ × RGB)),
        x.1 ≤ 61 := by decide
    exact hall p hp
  linarith

theorem interp_main_high (t : ℚ) (ht : 91 < t) :
    interpControlPoints specControlPointsMain t = ⟨192, 192, 192⟩ := by
  have e : specControlPointsMain =
      [((-1 : ℚ), (⟨192, 192, 192⟩ : RGB)), (0, ⟨192, 192, 192⟩),
       (1, ⟨0, 191, 255⟩), (9, ⟨0, 191, 255⟩), (10, ⟨50, 205, 50⟩), (19, ⟨50, 205, 50⟩),
       (20, ⟨255, 215, 0⟩), (29, ⟨255, 215, 0⟩), (30, ⟨255, 69, 0⟩), (60, ⟨255, 69, 0⟩),
       (61, ⟨192, 192, 192⟩)] ++ [((91 : ℚ), (⟨192, 192, 192⟩ : RGB))] := rfl
  rw [e]
  refine interp_append_last _ _ _ ?_ ht
  intro p hp
  have hb : p.1 ≤ 61 := by
    have hall : ∀ x ∈ ([((-1 : ℚ), (⟨192, 192, 192⟩ : RGB)), (0, ⟨192, 192, 192⟩),
       (1, ⟨0, 191, 255⟩), (9, ⟨0, 191, 255⟩), (10, ⟨50, 205, 50⟩), (19, ⟨50, 205, 50⟩),
       (20, ⟨255, 215, 0⟩), (29, ⟨255, 215, 0⟩), (30, ⟨255, 69, 0⟩), (60, ⟨255, 69, 0⟩),
       (61, ⟨192, 192, 192⟩)] : List (ℚ × RGB)), x.1 ≤ 61 := by decide
    exact hall p hp
  linarith

/-- C2: outside the zero, negative-offset (85–89) and sentinel (92–99)
bands, each code-to-color band table equals piecewise-linear
interpolation (with rounding to nearest and endpoint clamping) over an
ordered control-point list spanning the coldest to hottest defined
temperature. -/
theorem color_is_interpolation (v : ℤ)
    (h : ¬(v = 0 ∨ (85 ≤ v ∧ v ≤ 89) ∨ (92 ≤ v ∧ v ≤ 99))) :
    cor_por_valor_pdf v = interpControlPoints specControlPointsPdf (v : ℚ) ∧
    cor_por_valor_main v = interpControlPoints specControlPointsMain (v : ℚ) := by
  by_cases hlow : v ≤ -2
  · have ht : (v : ℚ) ≤ -1 := by exact_mod_cast (show v ≤ (-1 : ℤ) by omega)
    refine ⟨?_, ?_⟩
    · rw [interp_pdf_low _ ht]
      have hn0 : ¬ (v = 0) := by omega
      have hn1 : ¬ (1 ≤ v ∧ v ≤ 7) := by omega
      have hn2 : ¬ (8 ≤ v ∧ v ≤ 14) := by omega
      have hn3 : ¬ (15 ≤ v ∧ v ≤ 25) := by omega
      have hn4 : ¬ (26 ≤ v ∧ v ≤ 30) := by omega
      have hn5 : ¬ (31 ≤ v ∧ v ≤ 32) := by omega
      have hn6 : ¬ (33 ≤ v ∧ v ≤ 35) := by omega
      have hn7 : ¬ (36 ≤ v ∧ v ≤ 39) := by omega
      have hn8 : ¬ (40 ≤ v ∧ v ≤ 50) := by omega
      have hn9 : ¬ (51 ≤ v ∧ v ≤ 60) := by omega
      rw [cor_por_valor_pdf, if_neg hn0, if_neg hn1, if_neg hn2, if_neg hn3, if_neg hn4, if_neg hn5, if_neg hn6, if_neg hn7, if_neg hn8, if_neg hn9]
    · rw [interp_main_low _ ht]
      have hn0 : ¬ ((0 ≤ v ∧ v ≤ 9) ∨ (85 ≤ v ∧ v ≤ 89)) := by omega
      have hn1 : ¬ (10 ≤ v ∧ v ≤ 19) := by omega
      have hn2 : ¬ (20 ≤ v ∧ v ≤ 29) := by omega
      have hn3 : ¬ (30 ≤ v ∧ v ≤ 60) := by omega
      have hn4 : ¬ (92 ≤ v ∧ v ≤ 99) := by omega
      rw [cor_por_valor_main, if_neg hn0, if_neg hn1, if_neg hn2, if_neg hn3, if_neg hn4]
  · by_cases hhigh : 92 ≤ v
    · have ht : (91 : ℚ) < (v : ℚ) := by exact_mod_cast (show (91 : ℤ) < v by omega)
      refine ⟨?_, ?_⟩
      · rw [interp_pdf_high _ ht]
        have hn0 : ¬ (v = 0) := by omega
        have hn1 : ¬ (1 ≤ v ∧ v ≤ 7) := by omega
        have hn2 : ¬ (8 ≤ v ∧ v ≤ 14) := by omega
        have hn3 : ¬ (15 ≤ v ∧ v ≤ 25) := by omega
        have hn4 : ¬ (26 ≤ v ∧ v ≤ 30) := by omega
        have hn5 : ¬ (31 ≤ v ∧ v ≤ 32) := by omega
        have hn6 : ¬ (33 ≤ v ∧ v ≤ 35) := by omega
        have hn7 : ¬ (36 ≤ v ∧ v ≤ 39) := by omega
        have hn8 : ¬ (40 ≤ v ∧ v ≤ 50) := by omega
        have hn9 : ¬ (51 ≤ v ∧ v ≤ 60) := by omega
        rw [cor_por_valor_pdf, if_neg hn0, if_neg hn1, if_neg hn2, if_neg hn3, if_neg hn4, if_neg hn5, if_neg hn6, if_neg hn7, if_neg hn8, if_neg hn9]
      · rw [interp_main_high _ ht]
        have hn0 : ¬ ((0 ≤ v ∧ v ≤ 9) ∨ (85 ≤ v ∧ v ≤ 89)) := by omega
        have hn1 : ¬ (10 ≤ v ∧ v ≤ 19) := by omega
        have hn2 : ¬ (20 ≤ v ∧ v ≤ 29) := by omega
        have hn3 : ¬ (30 ≤ v ∧ v ≤ 60) := by omega
        have hn4 : ¬ (92 ≤ v ∧ v ≤ 99) := by omega
        rw [cor_por_valor_main, if_neg hn0, if_neg hn1, if_neg hn2, if_neg hn3, if_neg hn4]
    · constructor
      · have hb2 : (-1 ≤ v ∧ v ≤ 0) ∨ (1 ≤ v ∧ v ≤ 7) ∨ (8 ≤ v ∧ v ≤ 14) ∨
            (15 ≤ v ∧ v ≤ 25) ∨ (26 ≤ v ∧ v ≤ 30) ∨ (31 ≤ v ∧ v ≤ 32) ∨
            (33 ≤ v ∧ v ≤ 35) ∨ (36 ≤ v ∧ v ≤ 39) ∨ (40 ≤ v ∧ v ≤ 50) ∨
            (51 ≤ v ∧ v ≤ 60) ∨ (61 ≤ v ∧ v ≤ 91) := by omega
        rcases hb2 with hb | hb | hb | hb | hb | hb | hb | hb | hb | hb | hb
        · -- band [-1, 0]
          rw [interp_pdf_band _ (-1) 0 ⟨192, 192, 192⟩ (by decide)
            (by exact_mod_cast hb.1) (by exact_mod_cast hb.2)]
          have hn0 : ¬ (v = 0) := by omega
          have hn1 : ¬ (1 ≤ v ∧ v ≤ 7) := by omega
          have hn2 : ¬ (8 ≤ v ∧ v ≤ 14) := by omega
          have hn3 : ¬ (15 ≤ v ∧ v ≤ 25) := by omega
          have hn4 : ¬ (26 ≤ v ∧ v ≤ 30) := by omega
          have hn5 : ¬ (31 ≤ v ∧ v ≤ 32) := by omega
          have hn6 : ¬ (33 ≤ v ∧ v ≤ 35) := by omega
          have hn7 : ¬ (36 ≤ v ∧ v ≤ 39) := by omega
          have hn8 : ¬ (40 ≤ v ∧ v ≤ 50) := by omega
          have hn9 : ¬ (51 ≤ v ∧ v ≤ 60) := by omega
          rw [cor_por_valor_pdf, if_neg hn0, if_neg hn1, if_neg hn2, if_neg hn3, if_neg hn4, if_neg hn5, if_neg hn6, if_neg hn7, if_neg hn8, if_neg hn9]
        · -- band [1, 7]
          rw [interp_pdf_band _ (1) 7 ⟨128, 255, 255⟩ (by decide)
            (by exact_mod_cast hb.1) (by exact_mod_cast hb.2)]
          have hn0 : ¬ (v = 0) := by omega
          rw [cor_por_valor_pdf, if_neg hn0, if_pos (show 1 ≤ v ∧ v ≤ 7 from hb)]
        · -- band [8, 14]
          rw [interp_pdf_band _ (8) 14 ⟨0, 128, 255⟩ (by decide)
            (by exact_mod_cast hb.1) (by exact_mod_cast hb.2)]
          have hn0 : ¬ (v = 0) := by omega
          have hn1 : ¬ (1 ≤ v ∧ v ≤ 7) := by omega
          rw [cor_por_valor_pdf, if_neg hn0, if_neg hn1, if_pos (show 8 ≤ v ∧ v ≤ 14 from hb)]
        · -- band [15, 25]
          rw [interp_pdf_band _ (15) 25 ⟨0, 255, 128⟩ (by decide)
            (by exact_mod_cast hb.1) (by exact_mod_cast hb.2)]
          have hn0 : ¬ (v = 0) := by omega
          have hn1 : ¬ (1 ≤ v ∧ v ≤ 7) := by omega
          have hn2 : ¬ (8 ≤ v ∧ v ≤ 14) := by omega
          rw [cor_por_valor_pdf, if_neg hn0, if_neg hn1, if_neg hn2, if_pos (show 15 ≤ v ∧ v ≤ 25 from hb)]
        · -- band [26, 30]
          rw [interp_pdf_band _ (26) 30 ⟨255, 255, 128⟩ (by decide)
            (by exact_mod_cast hb.1) (by exact_mod_cast hb.2)]
          have hn0 : ¬ (v = 0) := by omega
          have hn1 : ¬ (1 ≤ v ∧ v ≤ 7) := by omega
          have hn2 : ¬ (8 ≤ v ∧ v ≤ 14) := by omega
          have hn3 : ¬ (15 ≤ v ∧ v ≤ 25) := by omega
          rw [cor_por_valor_pdf, if_neg hn0, if_neg hn1, if_neg hn2, if_neg hn3, if_pos (show 26 ≤ v ∧ v ≤ 30 from hb)]
        · -- band [31, 32]
          rw [interp_pdf_band _ (31) 32 ⟨255, 255, 0⟩ (by decide)
            (by exact_mod_cast hb.1) (by exact_mod_cast hb.2)]
          have hn0 : ¬ (v = 0) := by omega
          have hn1 : ¬ (1 ≤ v ∧ v ≤ 7) := by omega
          have hn2 : ¬ (8 ≤ v ∧ v ≤ 14) := by omega
          have hn3 : ¬ (15 ≤ v ∧ v ≤ 25) := by omega
          have hn4 : ¬ (26 ≤ v ∧ v ≤ 30) := by omega
          rw [cor_por_valor_pdf, if_neg hn0, if_neg hn1, if_neg hn2, if_neg hn3, if_neg hn4, if_pos (show 31 ≤ v ∧ v ≤ 32 from hb)]
        · -- band [33, 35]
          rw [interp_pdf_band _ (33) 35 ⟨255, 128, 128⟩ (by decide)
            (by exact_mod_cast hb.1) (by exact_mod_cast hb.2)]
          have hn0 : ¬ (v = 0) := by omega
          have hn1 : ¬ (1 ≤ v ∧ v ≤ 7) := by omega
          have hn2 : ¬ (8 ≤ v ∧ v ≤ 14) := by omega
          have hn3 : ¬ (15 ≤ v ∧ v ≤ 25) := by omega
          have hn4 : ¬ (26 ≤ v ∧ v ≤ 30) := by omega
          have hn5 : ¬ (31 ≤ v ∧ v ≤ 32) := by omega
          rw [cor_por_valor_pdf, if_neg hn0, if_neg hn1, if_neg hn2, if_neg hn3, if_neg hn4, if_neg hn5, if_pos (show 33 ≤ v ∧ v ≤ 35 from hb)]
        · -- band [36, 39]
          rw [interp_pdf_band _ (36) 39 ⟨255, 0, 0⟩ (by decide)
            (by exact_mod_cast hb.1) (by exact_mod_cast hb.2)]
          have hn0 : ¬ (v = 0) := by omega
          have hn1 : ¬ (1 ≤ v ∧ v ≤ 7) := by omega
          have hn2 : ¬ (8 ≤ v ∧ v ≤ 14) := by omega
          have hn3 : ¬ (15 ≤ v ∧ v ≤ 25) := by omega
          have hn4 : ¬ (26 ≤ v ∧ v ≤ 30) := by omega
          have hn5 : ¬ (31 ≤ v ∧ v ≤ 32) := by omega
          have hn6 : ¬ (33 ≤ v ∧ v ≤ 35) := by omega
          rw [cor_por_valor_pdf, if_neg hn0, if_neg hn1, if_neg hn2, if_neg hn3, if_neg hn4, if_neg hn5, if_neg hn6, if_pos (show 36 ≤ v ∧ v ≤ 39 from hb)]
        · -- band [40, 50]
          rw [interp_pdf_band _ (40) 50 ⟨128, 64, 64⟩ (by decide)
            (by exact_mod_cast hb.1) (by exact_mod_cast hb.2)]
          have hn0 : ¬ (v = 0) := by omega
          have hn1 : ¬ (1 ≤ v ∧ v ≤ 7) := by omega
          have hn2 : ¬ (8 ≤ v ∧ v ≤ 14) := by omega
          have hn3 : ¬ (15 ≤ v ∧ v ≤ 25) := by omega
          have hn4 : ¬ (26 ≤ v ∧ v ≤ 30) := by omega
          have hn5 : ¬ (31 ≤ v ∧ v ≤ 32) := by omega
          have hn6 : ¬ (33 ≤ v ∧ v ≤ 35) := by omega
          have hn7 : ¬ (36 ≤ v ∧ v ≤ 39) := by omega
          rw [cor_por_valor_pdf, if_neg hn0, if_neg hn1, if_neg hn2, if_neg hn3, if_neg hn4, if_neg hn5, if_neg hn6, if_neg hn7, if_pos (show 40 ≤ v ∧ v ≤ 50 from hb)]
        · -- band [51, 60]
          rw [interp_pdf_band _ (51) 60 ⟨128, 0, 0⟩ (by decide)
            (by exact_mod_cast hb.1) (by exact_mod_cast hb.2)]
          have hn0 : ¬ (v = 0) := by omega
          have hn1 : ¬ (1 ≤ v ∧ v ≤ 7) := by omega
          have hn2 : ¬ (8 ≤ v ∧ v ≤ 14) := by omega
          have hn3 : ¬ (15 ≤ v ∧ v ≤ 25) := by omega
          have hn4 : ¬ (26 ≤ v ∧ v ≤ 30) := by omega
          have hn5 : ¬ (31 ≤ v ∧ v ≤ 32) := by omega
          have hn6 : ¬ (33 ≤ v ∧ v ≤ 35) := by omega
          have hn7 : ¬ (36 ≤ v ∧ v ≤ 39) := by omega
          have hn8 : ¬ (40 ≤ v ∧ v ≤ 50) := by omega
          rw [cor_por_valor_pdf, if_neg hn0, if_neg hn1, if_neg hn2, if_neg hn3, if_neg hn4, if_neg hn5, if_neg hn6, if_neg hn7, if_neg hn8, if_pos (show 51 ≤ v ∧ v ≤ 60 from hb)]
        · -- band [61, 91]
          rw [interp_pdf_band _ (61) 91 ⟨192, 192, 192⟩ (by decide)
            (by exact_mod_cast hb.1) (by exact_mod_cast hb.2)]
          have hn0 : ¬ (v = 0) := by omega
          have hn1 : ¬ (1 ≤ v ∧ v ≤ 7) := by omega
          have hn2 : ¬ (8 ≤ v ∧ v ≤ 14) := by omega
          have hn3 : ¬ (15 ≤ v ∧ v ≤ 25) := by omega
          have hn4 : ¬ (26 ≤ v ∧ v ≤ 30) := by omega
          have hn5 : ¬ (31 ≤ v ∧ v ≤ 32) := by omega
          have hn6 : ¬ (33 ≤ v ∧ v ≤ 35) := by omega
          have hn7 : ¬ (36 ≤ v ∧ v ≤ 39) := by omega
          have hn8 : ¬ (40 ≤ v ∧ v ≤ 50) := by omega
          have hn9 : ¬ (51 ≤ v ∧ v ≤ 60) := by omega
          rw [cor_por_valor_pdf, if_neg hn0, if_neg hn1, if_neg hn2, if_neg hn3, if_neg hn4, if_neg hn5, if_neg hn6, if_neg hn7, if_neg hn8, if_neg hn9]
      · have hb2 : (-1 ≤ v ∧ v ≤ 0) ∨ (1 ≤ v ∧ v ≤ 9) ∨ (10 ≤ v ∧ v ≤ 19) ∨
            (20 ≤ v ∧ v ≤ 29) ∨ (30 ≤ v ∧ v ≤ 60) ∨ (61 ≤ v ∧ v ≤ 91) := by omega
        rcases hb2 with hb | hb | hb | hb | hb | hb
        · -- band [-1, 0]
          rw [interp_main_band _ (-1) 0 ⟨192, 192, 192⟩ (by decide)
            (by exact_mod_cast hb.1) (by exact_mod_cast hb.2)]
          have hn0 : ¬ ((0 ≤ v ∧ v ≤ 9) ∨ (85 ≤ v ∧ v ≤ 89)) := by omega
          have hn1 : ¬ (10 ≤ v ∧ v ≤ 19) := by omega
          have hn2 : ¬ (20 ≤ v ∧ v ≤ 29) := by omega
          have hn3 : ¬ (30 ≤ v ∧ v ≤ 60) := by omega
          have hn4 : ¬ (92 ≤ v ∧ v ≤ 99) := by omega
          rw [cor_por_valor_main, if_neg hn0, if_neg hn1, if_neg hn2, if_neg hn3, if_neg hn4]
        · -- band [1, 9]
          rw [interp_main_band _ (1) 9 ⟨0, 191, 255⟩ (by decide)
            (by exact_mod_cast hb.1) (by exact_mod_cast hb.2)]
          rw [cor_por_valor_main, if_pos (Or.inl (show 0 ≤ v ∧ v ≤ 9 by omega))]
        · -- band [10, 19]
          rw [interp_main_band _ (10) 19 ⟨50, 205, 50⟩ (by decide)
            (by exact_mod_cast hb.1) (by exact_mod_cast hb.2)]
          have hn0 : ¬ ((0 ≤ v ∧ v ≤ 9) ∨ (85 ≤ v ∧ v ≤ 89)) := by omega
          rw [cor_por_valor_main, if_neg hn0, if_pos (show 10 ≤ v ∧ v ≤ 19 from hb)]
        · -- band [20, 29]
          rw [interp_main_band _ (20) 29 ⟨255, 215, 0⟩ (by decide)
            (by exact_mod_cast hb.1) (by exact_mod_cast hb.2)]
          have hn0 : ¬ ((0 ≤ v ∧ v ≤ 9) ∨ (85 ≤ v ∧ v ≤ 89)) := by omega
          have hn1 : ¬ (10 ≤ v ∧ v ≤ 19) := by omega
          rw [cor_por_valor_main, if_neg hn0, if_neg hn1, if_pos (show 20 ≤ v ∧ v ≤ 29 from hb)]
        · -- band [30, 60]
          rw [interp_main_band _ (30) 60 ⟨255, 69, 0⟩ (by decide)
            (by exact_mod_cast hb.1) (by exact_mod_cast hb.2)]
          have hn0 : ¬ ((0 ≤ v ∧ v ≤ 9) ∨ (85 ≤ v ∧ v ≤ 89)) := by omega
          have hn1 : ¬ (10 ≤ v ∧ v ≤ 19) := by omega
          have hn2 : ¬ (20 ≤ v ∧ v ≤ 29) := by omega
          rw [cor_por_valor_main, if_neg hn0, if_neg hn1, if_neg hn2, if_pos (show 30 ≤ v ∧ v ≤ 60 from hb)]
        · -- band [61, 91]
          rw [interp_main_band _ (61) 91 ⟨192, 192, 192⟩ (by decide)
            (by exact_mod_cast hb.1) (by exact_mod_cast hb.2)]
          have hn0 : ¬ ((0 ≤ v ∧ v ≤ 9) ∨ (85 ≤ v ∧ v ≤ 89)) := by omega
          have hn1 : ¬ (10 ≤ v ∧ v ≤ 19) := by omega
          have hn2 : ¬ (20 ≤ v ∧ v ≤ 29) := by omega
          have hn3 : ¬ (30 ≤ v ∧ v ≤ 60) := by omega
          have hn4 : ¬ (92 ≤ v ∧ v ≤ 99) := by omega
          rw [cor_por_valor_main, if_neg hn0, if_neg hn1, if_neg hn2, if_neg hn3, if_neg hn4]

/-- Witness for C2 at the concrete code 20. -/
theorem color_is_interpolation_witness :
    cor_por_valor_pdf 20 = interpControlPoints specControlPointsPdf ((20 : ℤ) : ℚ) ∧
    cor_por_valor_main 20 = interpControlPoints specControlPointsMain ((20 : ℤ) : ℚ) :=
  color_is_interpolation 20 (by decide)

theorem paginateGo_cons (cur : List (List ℕ)) (rest : ℤ) (a : List ℕ) (arcs : List (List ℕ)) :
    paginateGo cur rest (a :: arcs) =
      if (a.length : ℤ) > 72 then
        (if cur = [] then [] else [cur]) ++ (chunks72 a).map (fun ch => [ch]) ++
          paginateGo [] 72 arcs
      else if (a.length : ℤ) > rest ∧ cur ≠ [] then
        cur :: paginateGo [a] (72 - (a.length : ℤ)) arcs
      else
        paginateGo (cur ++ [a]) (rest - (a.length : ℤ)) arcs := rfl

theorem rowPackGo_cons (ip l1 l2 : List ℕ) (rest1 : ℤ) (a : List ℕ) (arcs : List (List ℕ)) :
    rowPackGo ip l1 l2 rest1 (a :: arcs) =
      if a.filter (fun i => ip.contains i) = [] then rowPackGo ip l1 l2 rest1 arcs
      else if ((a.filter (fun i => ip.contains i)).length : ℤ) > 36 then
        rowPackGo ip
          (l1 ++ pySliceTo (a.filter (fun i => ip.contains i)) (36 - (l1.length : ℤ)))
          (l2 ++ pySliceFrom (a.filter (fun i => ip.contains i)) (36 - (l1.length : ℤ)))
          0 arcs
      else if ((a.filter (fun i => ip.contains i)).length : ℤ) ≤ rest1 then
        rowPackGo ip (l1 ++ a.filter (fun i => ip.contains i)) l2
          (rest1 - ((a.filter (fun i => ip.contains i)).length : ℤ)) arcs
      else
        rowPackGo ip l1 (l2 ++ a.filter (fun i => ip.contains i)) rest1 arcs := rfl

theorem planSilo_def (config : List ℕ) (temps : List ℤ) (arcos : Option (List ℕ)) :
    planSilo config temps arcos =
      if (buildColunas config temps).length = 0 then []
      else if maxSensores (buildColunas config temps) = 0 then []
      else
        (paginateGo [] 72
          (cabosPorArco arcos (buildColunas config temps).length)).map mkPage := rfl

theorem contains_of_mem (l : List ℕ) (i : ℕ) (h : i ∈ l) : l.contains i = true := by
  simpa using h

theorem filter_contains_flatten (gs : List (List ℕ)) :
    ∀ g ∈ gs, g.filter (fun i => gs.flatten.contains i) = g := by
  intro g hg
  apply List.filter_eq_self.mpr
  intro a ha
  exact contains_of_mem _ _ (List.mem_flatten.mpr ⟨g, hg, ha⟩)

theorem rowPackGo_mono_l1 (gs : List (List ℕ)) (ip l1 l2 : List ℕ) (r : ℤ) (i : ℕ)
    (hi : i ∈ l1) : i ∈ (rowPackGo ip l1 l2 r gs).1 := by
  induction gs generalizing l1 l2 r with
  | nil => exact hi
  | cons g gs ih =>
    rw [rowPackGo_cons]
    by_cases h1 : g.filter (fun j => ip.contains j) = []
    · rw [if_pos h1]; exact ih l1 l2 r hi
    · rw [if_neg h1]
      by_cases h2 : ((g.filter (fun j => ip.contains j)).length : ℤ) > 36
      · rw [if_pos h2]
        exact ih _ _ _ (List.mem_append_left _ hi)
      · rw [if_neg h2]
        by_cases h3 : ((g.filter (fun j => ip.contains j)).length : ℤ) ≤ r
        · rw [if_pos h3]
          exact ih _ _ _ (List.mem_append_left _ hi)
        · rw [if_neg h3]
          exact ih _ _ _ hi

theorem rowPackGo_mono_l2 (gs : List (List ℕ)) (ip l1 l2 : List ℕ) (r : ℤ) (i : ℕ)
    (hi : i ∈ l2) : i ∈ (rowPackGo ip l1 l2 r gs).2 := by
  induction gs generalizing l1 l2 r with
  | nil => exact hi
  | cons g gs ih =>
    rw [rowPackGo_cons]
    by_cases h1 : g.filter (fun j => ip.contains j) = []
    · rw [if_pos h1]; exact ih l1 l2 r hi
    · rw [if_neg h1]
      by_cases h2 : ((g.filter (fun j => ip.contains j)).length : ℤ) > 36
      · rw [if_pos h2]
        exact ih _ _ _ (List.mem_append_left _ hi)
      · rw [if_neg h2]
        by_cases h3 : ((g.filter (fun j => ip.contains j)).length : ℤ) ≤ r
        · rw [if_pos h3]
          exact ih _ _ _ hi
        · rw [if_neg h3]
          exact ih _ _ _ (List.mem_append_left _ hi)

theorem rowPackGo_small (gs : List (List ℕ)) (ip l1 l2 : List ℕ) (r : ℤ) (g : List ℕ)
    (hfilter : ∀ x ∈ gs, x.filter (fun i => ip.contains i) = x)
    (hg : g ∈ gs) (hsize : (g.length : ℤ) ≤ 36) :
    (∀ i ∈ g, i ∈ (rowPackGo ip l1 l2 r gs).1) ∨
    (∀ i ∈ g, i ∈ (rowPackGo ip l1 l2 r gs).2) := by
  induction gs generalizing l1 l2 r with
  | nil => simp at hg
  | cons x gs ih =>
    have hx : x.filter (fun i => ip.contains i) = x := hfilter x (by simp)
    have hrs : ∀ y ∈ gs, y.filter (fun i => ip.contains i) = y :=
      fun y hy => hfilter y (List.mem_cons_of_mem _ hy)
    rcases List.mem_cons.mp hg with rfl | hgs
    · by_cases hemp : g = []
      · left
        intro i hi
        rw [hemp] at hi
        simp at hi
      · rw [rowPackGo_cons, hx, if_neg hemp, if_neg (by omega : ¬ ((g.length : ℤ) > 36))]
        by_cases hfit : (g.length : ℤ) ≤ r
        · rw [if_pos hfit]
          left
          intro i hi
          exact rowPackGo_mono_l1 gs ip (l1 ++ g) l2 _ i (List.mem_append_right _ hi)
        · rw [if_neg hfit]
          right
          intro i hi
          exact rowPackGo_mono_l2 gs ip l1 (l2 ++ g) _ i (List.mem_append_right _ hi)
    · rw [rowPackGo_cons, hx]
      by_cases hemp : x = []
      · rw [if_pos hemp]
        exact ih l1 l2 r hrs hgs
      · rw [if_neg hemp]
        by_cases hbig : ((x.length : ℤ) > 36)
        · rw [if_pos hbig]
          exact ih _ _ _ hrs hgs
        · rw [if_neg hbig]
          by_cases hfit : ((x.length : ℤ) ≤ r)
          · rw [if_pos hfit]
            exact ih _ _ _ hrs hgs
          · rw [if_neg hfit]
            exact ih _ _ _ hrs hgs

theorem paginateGo_flatten (arcs : List (List ℕ)) (cur : List (List ℕ)) (rest : ℤ)
    (h : ∀ a ∈ arcs, (a.length : ℤ) ≤ 72) :
    (paginateGo cur rest arcs).flatten = cur ++ arcs := by
  induction arcs generalizing cur rest with
  | nil =>
    by_cases hc : cur = [] <;> simp [paginateGo, hc]
  | cons a arcs ih =>
    have ha : (a.length : ℤ) ≤ 72 := h a (by simp)
    have hrs : ∀ x ∈ arcs, (x.length : ℤ) ≤ 72 := fun x hx => h x (by simp [hx])
    rw [paginateGo_cons, if_neg (by omega : ¬ ((a.length : ℤ) > 72))]
    by_cases h2 : (a.length : ℤ) > rest ∧ cur ≠ []
    · rw [if_pos h2]
      simp [ih _ _ hrs]
    · rw [if_neg h2]
      rw [ih _ _ hrs]
      simp

theorem rowQuota_cons (cap : ℤ) (g : List ℕ) (gs : List (List ℕ)) :
    rowQuota cap (g :: gs) =
      if (g.length : ℤ) > 36 then cap.toNat :: rowQuota 0 gs
      else if (g.length : ℤ) ≤ cap then g.length :: rowQuota (cap - (g.length : ℤ)) gs
      else 0 :: rowQuota cap gs := rfl

theorem rowPackGo_eq_quota (gs : List (List ℕ)) (ip l1 l2 : List ℕ) (cap : ℤ)
    (hfilter : ∀ g ∈ gs, g.filter (fun i => ip.contains i) = g)
    (hcap : cap = 36 - (l1.length : ℤ)) (hl1 : (l1.length : ℤ) ≤ 36) :
    rowPackGo ip l1 l2 cap gs =
      (l1 ++ (List.zipWith (fun q g => List.take q g) (rowQuota cap gs) gs).flatten,
       l2 ++ (List.zipWith (fun q g => List.drop q g) (rowQuota cap gs) gs).flatten) := by
  induction gs generalizing l1 l2 cap with
  | nil => simp [rowPackGo, rowQuota]
  | cons g gs ih =>
    have hg : g.filter (fun i => ip.contains i) = g := hfilter g (by simp)
    have hrs : ∀ x ∈ gs, x.filter (fun i => ip.contains i) = x :=
      fun x hx => hfilter x (List.mem_cons_of_mem _ hx)
    have hcap0 : (0 : ℤ) ≤ cap := by omega
    rw [rowPackGo_cons, hg, rowQuota_cons]
    by_cases hbig : (g.length : ℤ) > 36
    · have hne : ¬ (g = []) := by
        intro hc
        rw [hc] at hbig
        simp at hbig
      rw [if_neg hne, if_pos hbig, if_pos hbig]
      have hfalta : (36 : ℤ) - (l1.length : ℤ) = cap := hcap.symm
      have hsl1 : pySliceTo g (36 - (l1.length : ℤ)) = g.take cap.toNat := by
        rw [hfalta, pySliceTo, if_neg (by omega : ¬ cap < 0)]
      have hsl2 : pySliceFrom g (36 - (l1.length : ℤ)) = g.drop cap.toNat := by
        rw [hfalta, pySliceFrom, if_neg (by omega : ¬ cap < 0)]
      rw [hsl1, hsl2]
      have hcapg : cap.toNat ≤ g.length := by omega
      have hlen : ((l1 ++ g.take cap.toNat).length : ℤ) = 36 := by
        simp only [List.length_append, List.length_take]
        push_cast
        omega
      rw [ih (l1 ++ g.take cap.toNat) (l2 ++ g.drop cap.toNat) 0 hrs
        (by omega) (by omega)]
      simp [List.append_assoc]
    · rw [if_neg hbig]
      by_cases hemp : g = []
      · rw [if_pos hemp]
        subst hemp
        rw [if_neg hbig, if_pos (show ((([] : List ℕ).length : ℕ) : ℤ) ≤ cap by
          simpa using hcap0)]
        rw [ih l1 l2 cap hrs hcap hl1]
        simp
      · rw [if_neg hemp]
        by_cases hfit : (g.length : ℤ) ≤ cap
        · rw [if_pos hfit]
          rw [if_neg hbig, if_pos hfit]
          have hlen2 : cap - (g.length : ℤ) = 36 - (((l1 ++ g).length : ℕ) : ℤ) := by
            simp only [List.length_append]
            push_cast
            omega
          rw [ih (l1 ++ g) l2 (cap - (g.length : ℤ)) hrs hlen2
            (by simp only [List.length_append]; push_cast; omega)]
          simp [List.append_assoc]
        · rw [if_neg hfit]
          rw [if_neg hbig, if_neg hfit]
          rw [ih l1 (l2 ++ g) cap hrs hcap hl1]
          simp [List.append_assoc]

/-- C5 (amended): the row assignment is first-fit on row 1, not
first-segment — each group's row-1 share is its `rowQuota`: the whole
group when it fits the capacity row 1 still has at the group's turn
(even after an earlier group overflowed to row 2), none when it does
not, and exactly the remaining capacity for a group larger than a row;
rows keep the original order. -/
theorem row_assignment_first_fit (groups : List (List ℕ)) :
    rowPackGo groups.flatten [] [] 36 groups =
      ((List.zipWith (fun q g => List.take q g) (rowQuota 36 groups) groups).flatten,
       (List.zipWith (fun q g => List.drop q g) (rowQuota 36 groups) groups).flatten) := by
  have h := rowPackGo_eq_quota groups groups.flatten [] [] 36
    (filter_contains_flatten groups) (by simp) (by simp)
  simpa using h

/-- C3 (amended): when every arc group is at most the page capacity of
72 cables, pagination keeps the pages' groups exactly the declared arcs
in order — no arc is split across two pages; and any arc group of at
most MAX_CABOS_POR_LINHA = 36 cables lands wholly in row 1 or wholly in
row 2 of its page. (An arc of 37–72 cables is split between the rows,
refuting the claim as stated; see the counterexample.) -/
theorem arcs_within_capacity (config : List ℕ) (temps : List ℤ)
    (arcos : Option (List ℕ))
    (h72 : ∀ a ∈ cabosPorArco arcos (buildColunas config temps).length,
      (a.length : ℤ) ≤ 72) :
    (paginateGo [] 72 (cabosPorArco arcos (buildColunas config temps).length)).flatten =
      cabosPorArco arcos (buildColunas config temps).length ∧
    ∀ p ∈ planSilo config temps arcos, ∀ g ∈ p.groups, (g.length : ℤ) ≤ 36 →
      (∀ i ∈ g, i ∈ p.row1) ∨ (∀ i ∈ g, i ∈ p.row2) := by
  constructor
  · simpa using paginateGo_flatten _ [] 72 h72
  · intro p hp g hg hsize
    rw [planSilo_def] at hp
    by_cases h1 : (buildColunas config temps).length = 0
    · rw [if_pos h1] at hp
      simp at hp
    · rw [if_neg h1] at hp
      by_cases h2 : maxSensores (buildColunas config temps) = 0
      · rw [if_pos h2] at hp
        simp at hp
      · rw [if_neg h2] at hp
        obtain ⟨gs, hgs, rfl⟩ := List.mem_map.mp hp
        have hg2 : g ∈ gs := hg
        rcases rowPackGo_small gs gs.flatten [] [] 36 g (filter_contains_flatten gs)
            hg2 hsize with hL | hR
        · left
          intro i hi
          show i ∈ (mkPage gs).row1
          have hip : i ∈ gs.flatten := List.mem_flatten.mpr ⟨g, hg2, hi⟩
          exact List.mem_filter.mpr ⟨hip, contains_of_mem _ _ (hL i hi)⟩
        · right
          intro i hi
          show i ∈ (mkPage gs).row2
          have hip : i ∈ gs.flatten := List.mem_flatten.mpr ⟨g, hg2, hi⟩
          exact List.mem_filter.mpr ⟨hip, contains_of_mem _ _ (hR i hi)⟩

theorem buildColunas_length (config : List ℕ) (temps : List ℤ) :
    (buildColunas config temps).length = config.length := by
  induction config generalizing temps with
  | nil => rfl
  | cons n ns ih => simp [buildColunas, ih]

theorem maxSensores_eq_zero (cols : List (List ℤ)) :
    maxSensores cols = 0 ↔ ∀ c ∈ cols, c = [] := by
  induction cols with
  | nil => simp [maxSensores]
  | cons c cols ih =>
    simp only [maxSensores, List.map_cons, List.foldr_cons] at ih ⊢
    rw [Nat.max_eq_zero_iff]
    simp only [List.length_eq_zero, List.mem_cons]
    constructor
    · rintro ⟨hc, hrest⟩ x (rfl | hx)
      · exact hc
      · exact ih.mp hrest x hx
    · intro hall
      exact ⟨hall c (Or.inl rfl), ih.mpr fun x hx => hall x (Or.inr hx)⟩

theorem buildColunas_all_nil_iff (config : List ℕ) (temps : List ℤ) :
    (∀ c ∈ buildColunas config temps, c = []) ↔ temps = [] ∨ ∀ n ∈ config, n = 0 := by
  induction config generalizing temps with
  | nil => simp [buildColunas]
  | cons n ns ih =>
    simp only [buildColunas, List.mem_cons]
    constructor
    · intro hall
      have h1 : temps.take n = [] := hall _ (Or.inl rfl)
      rcases List.take_eq_nil_iff.mp h1 with hn | ht
      · subst hn
        rcases (ih temps).mp (by
            intro c hc
            exact hall c (Or.inr (by simpa using hc))) with ht | hns
        · exact Or.inl ht
        · exact Or.inr (by
            intro m hm
            rcases hm with rfl | hm2
            · rfl
            · exact hns m hm2)
      · exact Or.inl ht
    · rintro (rfl | hzero)
      · intro c hc
        rcases hc with rfl | hc2
        · simp
        · have := (ih []).mpr (Or.inl rfl)
          exact this c (by simpa using hc2)
      · intro c hc
        have hn : n = 0 := hzero n (by simp)
        rcases hc with rfl | hc2
        · simp [hn]
        · have := (ih temps).mpr (Or.inr fun m hm => hzero m (by simp [hm]))
          subst hn
          exact this c (by simpa using hc2)

theorem chunks72_ne_nil (l : List ℕ) (h : l ≠ []) : chunks72 l ≠ [] := by
  cases l with
  | nil => exact absurd rfl h
  | cons x xs => simp [chunks72]

theorem paginateGo_ne_nil (arcs : List (List ℕ)) (cur : List (List ℕ)) (rest : ℤ)
    (hne : ∀ a ∈ arcs, a ≠ []) (h : cur ≠ [] ∨ arcs ≠ []) :
    paginateGo cur rest arcs ≠ [] := by
  induction arcs generalizing cur rest with
  | nil =>
    rcases h with hc | ha
    · simp [paginateGo, hc]
    · exact absurd rfl ha
  | cons a arcs ih =>
    rw [paginateGo_cons]
    by_cases hbig : (a.length : ℤ) > 72
    · rw [if_pos hbig]
      have hch : chunks72 a ≠ [] := chunks72_ne_nil a (hne a (by simp))
      intro hcontra
      rcases List.append_eq_nil.mp hcontra with ⟨h12, -⟩
      rcases List.append_eq_nil.mp h12 with ⟨-, hmap⟩
      exact hch (List.map_eq_nil_iff.mp hmap)
    · rw [if_neg hbig]
      by_cases h2 : (a.length : ℤ) > rest ∧ cur ≠ []
      · rw [if_pos h2]
        exact List.cons_ne_nil _ _
      · rw [if_neg h2]
        exact ih _ _ (fun x hx => hne x (by simp [hx]))
          (Or.inl (by simp))

theorem cabosPorArcoGo_cons (total inicio q : ℕ) (qs : List ℕ) :
    cabosPorArcoGo total inicio (q :: qs) =
      if min (inicio + q) total ≤ inicio then ([], inicio)
      else (List.range' inicio (min (inicio + q) total - inicio) ::
              (cabosPorArcoGo total (min (inicio + q) total) qs).1,
            (cabosPorArcoGo total (min (inicio + q) total) qs).2) := rfl

theorem cabosPorArcoGo_all_ne_nil (l : List ℕ) (total inicio : ℕ) :
    ∀ a ∈ (cabosPorArcoGo total inicio l).1, a ≠ [] := by
  induction l generalizing inicio with
  | nil => simp [cabosPorArcoGo]
  | cons q qs ih =>
    by_cases hb : min (inicio + q) total ≤ inicio
    · simp [cabosPorArcoGo, hb]
    · simp only [cabosPorArcoGo, if_neg hb]
      intro a ha
      rcases List.mem_cons.mp ha with rfl | ha2
      · have : min (inicio + q) total - inicio ≠ 0 := by omega
        simp [List.range'_eq_nil, this]
      · exact ih (min (inicio + q) total) a ha2

theorem cabosPorArco_all_ne_nil (arcos : Option (List ℕ)) (total : ℕ) :
    ∀ a ∈ cabosPorArco arcos total, a ≠ [] := by
  match arcos with
  | none =>
    intro a ha
    simp only [cabosPorArco] at ha
    obtain ⟨i, -, rfl⟩ := List.mem_map.mp ha
    exact List.cons_ne_nil _ _
  | some l =>
    by_cases he : l.isEmpty
    · intro a ha
      simp only [cabosPorArco, if_pos he] at ha
      obtain ⟨i, -, rfl⟩ := List.mem_map.mp ha
      exact List.cons_ne_nil _ _
    · intro a ha
      simp only [cabosPorArco, if_neg he] at ha
      by_cases ht : (cabosPorArcoGo total 0 l).2 < total
      · rw [if_pos ht] at ha
        rcases List.mem_append.mp ha with h1 | h2
        · exact cabosPorArcoGo_all_ne_nil l total 0 a h1
        · rcases List.mem_singleton.mp h2 with rfl
          have : total - (cabosPorArcoGo total 0 l).2 ≠ 0 := by omega
          simp [List.range'_eq_nil, this]
      · rw [if_neg ht] at ha
        exact cabosPorArcoGo_all_ne_nil l total 0 a ha

theorem cabosPorArco_ne_nil (arcos : Option (List ℕ)) (total : ℕ) (h : 0 < total) :
    cabosPorArco arcos total ≠ [] := by
  match arcos with
  | none =>
    simp [cabosPorArco, List.map_eq_nil_iff, List.range_eq_nil]
    omega
  | some l =>
    by_cases he : l.isEmpty
    · simp [cabosPorArco, he, List.map_eq_nil_iff, List.range_eq_nil]
      omega
    · simp only [cabosPorArco, if_neg he]
      by_cases ht : (cabosPorArcoGo total 0 l).2 < total
      · rw [if_pos ht]
        intro hcontra
        rcases List.append_eq_nil.mp hcontra with ⟨-, h2⟩
        exact List.cons_ne_nil _ _ h2
      · rw [if_neg ht]
        -- the loop did not stop short of total, so it produced at least one group
        cases l with
        | nil => simp at he
        | cons q qs =>
          by_cases hb : min (0 + q) total ≤ 0
          · exfalso
            have h0 : (cabosPorArcoGo total 0 (q :: qs)).2 = 0 := by
              rw [cabosPorArcoGo_cons, if_pos hb]
            omega
          · rw [cabosPorArcoGo_cons, if_neg hb]
            exact List.cons_ne_nil _ _

/-- C4 (amended): the planner never signals an error; it silently
produces no pages exactly when the geometry declares no cables, the
sensor vector is empty, or every declared cable length is zero. -/
theorem plan_silo_noop_iff (config : List ℕ) (temps : List ℤ) (arcos : Option (List ℕ)) :
    planSiloE config temps arcos = Except.ok [] ↔
      config = [] ∨ temps = [] ∨ ∀ n ∈ config, n = 0 := by
  have he : planSiloE config temps arcos = Except.ok (planSilo config temps arcos) := rfl
  rw [he]
  simp only [Except.ok.injEq]
  rw [planSilo_def]
  by_cases h1 : (buildColunas config temps).length = 0
  · rw [if_pos h1]
    have hc : config = [] := by
      rwa [buildColunas_length, List.length_eq_zero] at h1
    simp [hc]
  · rw [if_neg h1]
    by_cases h2 : maxSensores (buildColunas config temps) = 0
    · rw [if_pos h2]
      have hr : temps = [] ∨ ∀ n ∈ config, n = 0 :=
        (buildColunas_all_nil_iff config temps).mp ((maxSensores_eq_zero _).mp h2)
      simp [hr]
    · rw [if_neg h2]
      have hconfig : config ≠ [] := by
        intro hc
        exact h1 (by simp [hc, buildColunas_length])
      have hnz : ¬ (temps = [] ∨ ∀ n ∈ config, n = 0) := by
        intro hor
        exact h2 ((maxSensores_eq_zero _).mpr ((buildColunas_all_nil_iff config temps).mpr hor))
      have htotal : 0 < (buildColunas config temps).length := Nat.pos_of_ne_zero h1
      have hpag : paginateGo [] 72
          (cabosPorArco arcos (buildColunas config temps).length) ≠ [] :=
        paginateGo_ne_nil _ _ _ (cabosPorArco_all_ne_nil _ _)
          (Or.inr (cabosPorArco_ne_nil _ _ htotal))
      refine iff_of_false (fun hm => hpag (List.map_eq_nil_iff.mp hm)) ?_
      rintro (hc | hor)
      · exact hconfig hc
      · exact hnz hor

theorem getKey_upsert_self {α : Type} (k : String) (v : α) (l : List (String × α)) :
    getKey k (upsert k v l) = some v := by
  induction l with
  | nil => simp [upsert, getKey]
  | cons p rest ih =>
    obtain ⟨k2, v2⟩ := p
    by_cases hk : k2 = k
    · simp [upsert, hk, getKey]
    · simp [upsert, hk, getKey, ih]

theorem upsert_ne_nil {α : Type} (k : String) (v : α) (l : List (String × α)) :
    upsert k v l ≠ [] := by
  cases l with
  | nil => simp [upsert]
  | cons p rest =>
    obtain ⟨k2, v2⟩ := p
    by_cases hk : k2 = k
    · simp [upsert, hk]
    · simp [upsert, hk]

theorem getKey_delKey_self {α : Type} (k : String) (l : List (String × α)) :
    getKey k (delKey k l) = none := by
  induction l with
  | nil => rfl
  | cons p rest ih =>
    obtain ⟨k2, v2⟩ := p
    by_cases hk : k2 = k
    · simpa [delKey, hk] using ih
    · simpa [delKey, List.filter_cons, hk, getKey] using ih

/-- C1 (amended): a reading recorded after the timeout scan has marked
its site due is accepted — it is immediately visible in the aggregation
state and is included in the report of the current flush — but the
flush's final clear removes the site's whole state, so the reading is
not in the aggregation state after the flush completes and does not
land in a next aggregation cycle. -/
theorem record_during_flush (cfg : List (String × List String)) (st : AppState)
    (obra silo : String) (temps : List ℤ) (ts : String) (now agora timeout : ℤ)
    (unidades : List String)
    (hcfg : getKey obra cfg = some unidades)
    (hdue : obra ∈ obrasParaFechar st agora timeout)
    (hunit : silo ∈ unidades) :
    getKey silo
        ((getKey obra (record st obra silo temps ts now).leiturasObra).getD [])
      = some ⟨temps, ts⟩ ∧
    (silo, (⟨temps, ts⟩ : Reading)) ∈
        ((flushObra cfg (record st obra silo temps ts now) obra).2.getD []) ∧
    getKey obra (flushObra cfg (record st obra silo temps ts now) obra).1.leiturasObra
      = none := by
  set st2 := record st obra silo temps ts now with hst2
  have hmap : getKey obra st2.leiturasObra =
      some (upsert silo ⟨temps, ts⟩ ((getKey obra st.leiturasObra).getD [])) := by
    rw [hst2]
    exact getKey_upsert_self ..
  have haccept : getKey silo ((getKey obra st2.leiturasObra).getD [])
      = some ⟨temps, ts⟩ := by
    rw [hmap]
    exact getKey_upsert_self ..
  have hne : ¬ ((getKey obra st2.leiturasObra).getD []).isEmpty = true := by
    rw [hmap]
    simp [List.isEmpty_iff, upsert_ne_nil]
  refine ⟨haccept, ?_, ?_⟩
  · show (silo, (⟨temps, ts⟩ : Reading)) ∈ (flushObra cfg st2 obra).2.getD []
    rw [flushObra, hcfg]
    simp only [if_neg hne]
    apply List.mem_filterMap.mpr
    exact ⟨silo, hunit, by rw [haccept]; rfl⟩
  · show getKey obra (flushObra cfg st2 obra).1.leiturasObra = none
    rw [flushObra, hcfg]
    simp only [if_neg hne]
    exact getKey_delKey_self ..

/-- Counterexample to C1 as stated: site obra1 is due at time 200; a
reading for silo2 recorded now is accepted, yet after the flush the
aggregation state holds nothing for obra1 — the late reading is not
present, so it cannot land in a next aggregation cycle. -/
theorem late_reading_lost :
    obrasParaFechar c1State 200 180 = ["obra1"] ∧
    getKey "silo2"
        ((getKey "obra1"
          (record c1State "obra1" "silo2" [30] "t2" 200).leiturasObra).getD [])
      = some ⟨[30], "t2"⟩ ∧
    getKey "obra1"
        (flushObra c1Cfg (record c1State "obra1" "silo2" [30] "t2" 200)
          "obra1").1.leiturasObra
      = none :=
  ⟨rfl, rfl, rfl⟩

/-- Witness for amended C1 at the concrete scenario. -/
theorem record_during_flush_witness :
    getKey "silo2"
        ((getKey "obra1"
          (record c1State "obra1" "silo2" [30] "t2" 200).leiturasObra).getD [])
      = some ⟨[30], "t2"⟩ ∧
    ("silo2", (⟨[30], "t2"⟩ : Reading)) ∈
        ((flushObra c1Cfg (record c1State "obra1" "silo2" [30] "t2" 200) "obra1").2.getD []) ∧
    getKey "obra1"
        (flushObra c1Cfg (record c1State "obra1" "silo2" [30] "t2" 200)
          "obra1").1.leiturasObra
      = none :=
  record_during_flush c1Cfg c1State "obra1" "silo2" [30] "t2" 200 200 180
    ["silo1", "silo2"] (by rfl) (by decide) (by decide)

set_option maxRecDepth 10000 in
/-- C9: a unit with 40 cables of 10 sensors each and no declared arcs
packs onto exactly one page, row 1 holding cables C01–C36 (indices
0–35) and row 2 holding cables C37–C40 (indices 36–39), in order. -/
theorem forty_cable_layout :
    (planSilo (List.replicate 40 10) (List.replicate 400 25) none).map
        (fun p => (p.row1, p.row2)) =
      [(List.range 36, [36, 37, 38, 39])] := by
  decide

/-- Counterexample to C4 as stated: an empty sensor-value sequence does
not fail with a GeometryError — the planner returns successfully with
no pages, the same silent no-op value as any other empty input. -/
theorem geometry_error_counterexample :
    planSiloE [3] ([] : List ℤ) none = Except.ok [] := rfl

set_option maxRecDepth 10000 in
/-- Counterexample to C3 as stated: a single declared arc of 40 cables —
within the page capacity of 72 — is laid out with cables in both row 1
and row 2 of its page, so an arc of at most page capacity can be split
across the two rows. -/
theorem arc_split_counterexample :
    ((cabosPorArco (some [40]) 40).all (fun a => a.length ≤ 72) = true) ∧
    someArcSplitAcrossRows
        (planSilo (List.replicate 40 1) (List.replicate 40 20) (some [40])) = true :=
  ⟨by decide, by decide⟩

/-- Witness for amended C3 at a concrete geometry (three cables, arcs of
sizes 2 and 1). -/
theorem arcs_within_capacity_witness :
    (paginateGo [] 72
        (cabosPorArco (some [2, 1]) (buildColunas [1, 1, 1] [5, 5, 5]).length)).flatten =
      cabosPorArco (some [2, 1]) (buildColunas [1, 1, 1] [5, 5, 5]).length ∧
    ∀ p ∈ planSilo [1, 1, 1] [5, 5, 5] (some [2, 1]), ∀ g ∈ p.groups,
      (g.length : ℤ) ≤ 36 → (∀ i ∈ g, i ∈ p.row1) ∨ (∀ i ∈ g, i ∈ p.row2) :=
  arcs_within_capacity [1, 1, 1] [5, 5, 5] (some [2, 1]) (by decide)

set_option maxRecDepth 10000 in
/-- Counterexample to C5 as stated: with arc groups of 30, 10 and 5
cables on one page, the group of 10 overflows to row 2 but the later
group of 5 still fits row 1's remaining capacity and is placed there —
a group that follows a row-2 group ends up in row 1. -/
theorem row_packing_counterexample :
    (planSilo (List.replicate 45 1) (List.replicate 45 20) (some [30, 10, 5])).all
        noRow1AfterRow2 = false := by
  decide
